import Mathlib

/-
  Verification of the hotel guest-interaction client (ChiefTain repository).

  The two source components are shallowly embedded:
  - `Chatbot` embeds the combined concierge / room-service / booking panel
    (Chatbot.jsx): its React state hooks become the fields of
    `Chatbot.State`, each event handler becomes a pure function from the
    state and an explicit network outcome to the new state plus a list of
    observable effects (HTTP requests issued, alerts, console logging,
    checkout invocations).
  - `PaymentPage` embeds the standalone payment page in the same way.

  Network calls are modelled by passing the eventual outcome of the call
  (`NetResult`) as an argument, so each handler computes the full
  request/response round trip as one pure function.  Interleavings of
  in-flight requests with user events are modelled separately by a small
  world model (`Chatbot.World`, `Chatbot.wStep`) in which request issuance
  and request resolution are distinct events.
-/

/-- Outcome of an HTTP call: success with a payload, or failure carrying the
optional server-supplied detail field and the error message string. -/
inductive NetResult (α : Type) where
  | ok (val : α)
  | fail (detail : Option String) (message : String)
deriving DecidableEq

/-- Embeds the JavaScript guard `!str.trim()`: true exactly when the
string is empty or consists of whitespace only. -/
def jsTrimEmpty (s : String) : Bool := s.data.all Char.isWhitespace

/-- Embeds the JavaScript idiom `a || b` on strings as used for alert
messages and status labels: an absent or empty string falls through. -/
def jsOr (a : Option String) (b : String) : String :=
  match a with
  | some s => if s = "" then b else s
  | none => b

/-- Configuration passed to the external checkout constructor: the public
key, the order id, and the booking id recorded in the notes field. -/
structure CheckoutConfig where
  key : String
  orderId : String
  notesBookingId : String
deriving DecidableEq

/-- Observable effects of an event handler, in program order. -/
inductive Effect where
  | httpPost (url : String) (body : List (String × String))
  | httpGet (url : String) (params : List (String × String))
  | alertMsg (msg : String)
  | consoleError (msg : String)
  | openCheckout (cfg : CheckoutConfig)
deriving DecidableEq

/-- True exactly on the effects that issue a network request. -/
def isNetworkEffect (e : Effect) : Bool :=
  match e with
  | Effect.httpPost _ _ => true
  | Effect.httpGet _ _ => true
  | _ => false

/-- True exactly on POST requests to an order-creation endpoint
(`/booking/{id}/create-order`), recognised by the URL suffix. -/
def isCreateOrderPost (e : Effect) : Bool :=
  match e with
  | Effect.httpPost u _ => "/create-order".data.isSuffixOf u.data
  | _ => false

/-- One chat log entry (`{ from, text }` in the source). -/
structure ChatMessage where
  from_ : String
  text : String
deriving DecidableEq

/-- Availability response payload: per-room-type open counts. -/
structure Availability where
  Deluxe : Nat
  Suite : Nat
  Standard : Nat
deriving DecidableEq

/-- The `paySummary` object built from a create-order response; `status` is
absent until the verify success handler sets it. -/
structure PaySummary where
  amount : Nat
  currency : String
  orderId : String
  status : Option String
deriving DecidableEq

/-- The order object of a create-order response. -/
structure OrderObj where
  id : String
  amount : Nat
  currency : String
  status : Option String
deriving DecidableEq

/-- The booking object of a booking-create response; `id` may be absent. -/
structure BookingObj where
  id : Option String
deriving DecidableEq

/-- Payload of a successful create-order response. -/
structure CreateOrderData where
  key_id : String
  order : OrderObj
deriving DecidableEq

/-- Fields supplied by the checkout widget success callback. -/
structure RzpResp where
  razorpay_order_id : String
  razorpay_payment_id : String
  razorpay_signature : String
deriving DecidableEq

/-- Embeds `(amount / 100).toFixed(2)` for an integer minor-unit amount;
exact at the amounts considered in the proofs below. -/
def toFixed2Of100 (amount : Nat) : String :=
  toString (amount / 100) ++ "." ++
    (if amount % 100 < 10 then "0" ++ toString (amount % 100)
     else toString (amount % 100))

/-- The displayed amount line, identical in both render sites:
`₹{(amount / 100).toFixed(2)} {currency}`. -/
def renderAmount (amount : Nat) (currency : String) : String :=
  "₹" ++ toFixed2Of100 amount ++ " " ++ currency

namespace Chatbot

/-- Backend base URL used by the combined panel. -/
def API_BASE : String := "https://chieftrain.onrender.com"

/-- The React state hooks of the Chatbot component. -/
structure State where
  section_ : Option String
  chatMessages : List ChatMessage
  currentInput : String
  roomNumber : String
  phoneNumber : String
  requestText : String
  requestSuccess : Bool
  email : String
  roomType : String
  checkIn : String
  checkOut : String
  bookingSuccess : String
  availability : Option Availability
  openFAQ : Option Nat
  isRequestLoading : Bool
  isBookingLoading : Bool
  isCheckingLoading : Bool
  paySummary : Option PaySummary
deriving DecidableEq

/-- Initial hook values of the Chatbot component. -/
def initState : State :=
  { section_ := none
    chatMessages := [{ from_ := "bot", text := "How can I help you today?" }]
    currentInput := ""
    roomNumber := ""
    phoneNumber := ""
    requestText := ""
    requestSuccess := false
    email := ""
    roomType := "Deluxe"
    checkIn := ""
    checkOut := ""
    bookingSuccess := ""
    availability := none
    openFAQ := none
    isRequestLoading := false
    isBookingLoading := false
    isCheckingLoading := false
    paySummary := none }

/-- The payment chip text: `paySummary.status === "paid" ? "Paid" :
"Payment Pending"`. -/
def chipLabel (p : PaySummary) : String :=
  if p.status = some "paid" then "Paid" else "Payment Pending"

/-- The POST request issued by `handleChatSubmit`. -/
def chatPost (s : State) : Effect :=
  Effect.httpPost (API_BASE ++ "/chat/")
    [("user_id", if s.email = "" then "guest" else s.email),
     ("message", s.currentInput)]

/-- Embeds `handleChatSubmit`: a blank input returns immediately; otherwise
the user message is appended, the input cleared, and the chat POST issued.
A failure is only logged to the console. -/
def handleChatSubmit (s : State) (res : NetResult String) :
    State × List Effect :=
  if jsTrimEmpty s.currentInput then (s, [])
  else
    let s1 := { s with
      chatMessages := s.chatMessages ++ [{ from_ := "user", text := s.currentInput }],
      currentInput := "" }
    match res with
    | NetResult.ok r =>
        ({ s1 with chatMessages := s1.chatMessages ++ [{ from_ := "bot", text := r }] },
         [chatPost s])
    | NetResult.fail _ _ =>
        (s1, [chatPost s, Effect.consoleError "Chat error:"])

/-- The POST request issued by `handleRequestSubmit`. -/
def requestPost (s : State) : Effect :=
  Effect.httpPost (API_BASE ++ "/request/")
    [("room_number", s.roomNumber), ("phone_number", s.phoneNumber),
     ("request", s.requestText)]

/-- Embeds `handleRequestSubmit`: validation alert when a field is empty;
otherwise the request POST is issued inside a try/finally that resets the
loading flag.  There is no catch clause, so a failure produces no alert. -/
def handleRequestSubmit (s : State) (res : NetResult Unit) :
    State × List Effect :=
  if s.roomNumber = "" ∨ s.phoneNumber = "" ∨ s.requestText = "" then
    (s, [Effect.alertMsg "Please fill all fields."])
  else
    match res with
    | NetResult.ok _ =>
        ({ s with isRequestLoading := false, requestSuccess := true,
                  roomNumber := "", phoneNumber := "", requestText := "" },
         [requestPost s])
    | NetResult.fail _ _ =>
        ({ s with isRequestLoading := false }, [requestPost s])

/-- The booking-create POST issued by `handleBookingSubmit`. -/
def bookingPost (s : State) : Effect :=
  Effect.httpPost (API_BASE ++ "/booking/")
    [("user_id", s.email), ("name", s.email), ("room_type", s.roomType),
     ("check_in", s.checkIn), ("check_out", s.checkOut)]

/-- Extracts `bookRes.data?.booking?.id`, treating an absent booking object,
an absent id, and an empty id as missing (all falsy in the source guard). -/
def extractBookingId (p : Option BookingObj) : Option String :=
  match p with
  | none => none
  | some b =>
    match b.id with
    | none => none
    | some i => if i = "" then none else some i

/-- Environment of one run of `handleBookingSubmit`: the outcome of the
booking-create call, of the create-order call, and of loading the checkout
script (`some message` when loading fails). -/
structure BookingEnv where
  bookingRes : NetResult (Option BookingObj)
  orderRes : NetResult CreateOrderData
  razorpayErr : Option String
deriving DecidableEq

/-- Embeds `handleBookingSubmit`: validation on email and the two dates
only; then booking create, id extraction, order creation, pay-summary
display and checkout invocation, with the catch clause alerting
`detail || message || generic` and the finally clause resetting the
loading flag. -/
def handleBookingSubmit (s : State) (env : BookingEnv) :
    State × List Effect :=
  if s.email = "" ∨ s.checkIn = "" ∨ s.checkOut = "" then
    (s, [Effect.alertMsg "Please fill all fields."])
  else
    match env.bookingRes with
    | NetResult.fail d m =>
        ({ s with isBookingLoading := false },
         [bookingPost s, Effect.consoleError "Book & Pay error:",
          Effect.alertMsg (jsOr d (jsOr (some m) "Booking/payment failed."))])
    | NetResult.ok payload =>
      match extractBookingId payload with
      | none =>
          ({ s with isBookingLoading := false },
           [bookingPost s, Effect.consoleError "Book & Pay error:",
            Effect.alertMsg "Booking create failed"])
      | some bid =>
        let post2 := Effect.httpPost (API_BASE ++ "/booking/" ++ bid ++ "/create-order") []
        match env.orderRes with
        | NetResult.fail d m =>
            ({ s with isBookingLoading := false },
             [bookingPost s, post2, Effect.consoleError "Book & Pay error:",
              Effect.alertMsg (jsOr d (jsOr (some m) "Booking/payment failed."))])
        | NetResult.ok od =>
          let summary : PaySummary :=
            { amount := od.order.amount, currency := od.order.currency,
              orderId := od.order.id, status := none }
          let s2 := { s with paySummary := some summary }
          match env.razorpayErr with
          | some m =>
              ({ s2 with isBookingLoading := false },
               [bookingPost s, post2, Effect.consoleError "Book & Pay error:",
                Effect.alertMsg (jsOr (some m) "Booking/payment failed.")])
          | none =>
              ({ s2 with isBookingLoading := false },
               [bookingPost s, post2,
                Effect.openCheckout
                  { key := od.key_id, orderId := od.order.id, notesBookingId := bid }])

/-- The verify POST issued by both verify handlers. -/
def verifyPost (base : String) (resp : RzpResp) : Effect :=
  Effect.httpPost (base ++ "/booking/payment/verify")
    [("razorpay_order_id", resp.razorpay_order_id),
     ("razorpay_payment_id", resp.razorpay_payment_id),
     ("razorpay_signature", resp.razorpay_signature)]

/-- Embeds the checkout success handler of the combined panel: on verify
success the pay summary status becomes "paid", the confirmation banner is
set and the form is cleared; the handler has no try/catch, so a verify
failure changes nothing and surfaces nothing. -/
def verifyHandler (s : State) (resp : RzpResp) (res : NetResult Unit) :
    State × List Effect :=
  match res with
  | NetResult.ok _ =>
      ({ s with
          paySummary := s.paySummary.map (fun p => { p with status := some "paid" }),
          bookingSuccess := "✅ Payment successful! Your booking is confirmed.",
          email := "", roomType := "Deluxe", checkIn := "", checkOut := "",
          availability := none },
       [verifyPost API_BASE resp])
  | NetResult.fail _ _ => (s, [verifyPost API_BASE resp])

/-- The availability GET issued by `checkRoomAvailability`. -/
def availGet (s : State) : Effect :=
  Effect.httpGet (API_BASE ++ "/booking/availability/")
    [("check_in", s.checkIn), ("check_out", s.checkOut)]

/-- Embeds `checkRoomAvailability`: date validation alert, then the GET;
a failure is logged and alerted with a fixed generic message; the finally
clause resets the checking flag. -/
def checkRoomAvailability (s : State) (res : NetResult Availability) :
    State × List Effect :=
  if s.checkIn = "" ∨ s.checkOut = "" then
    (s, [Effect.alertMsg "Select both check-in & check-out dates."])
  else
    match res with
    | NetResult.ok d =>
        ({ s with isCheckingLoading := false, availability := some d }, [availGet s])
    | NetResult.fail _ _ =>
        ({ s with isCheckingLoading := false },
         [availGet s, Effect.consoleError "Availability check failed:",
          Effect.alertMsg "Failed to fetch availability."])

/-- Embeds `goHome`: clears the booking form, availability, pay summary,
banner, the room-service form, all loading flags, and returns to the menu. -/
def goHome (s : State) : State :=
  { s with
      email := "", roomType := "Deluxe", checkIn := "", checkOut := "",
      availability := none, paySummary := none, bookingSuccess := "",
      isBookingLoading := false, isCheckingLoading := false,
      roomNumber := "", phoneNumber := "", requestText := "",
      isRequestLoading := false, requestSuccess := false,
      section_ := none }

/-- Opening the booking panel from the main menu (the menu is rendered only
when no section is active). -/
def openBooking (s : State) : State :=
  if s.section_ = none then { s with section_ := some "booking" } else s

/-- The chat send button carries no disabled attribute. -/
def chatSendDisabled (_ : State) : Bool := false

/-- The room-service send button: `disabled={isRequestLoading}`. -/
def requestSendDisabled (s : State) : Bool := s.isRequestLoading

/-- The availability button: `disabled={isCheckingLoading}`. -/
def checkAvailDisabled (s : State) : Bool := s.isCheckingLoading

/-- The book-and-pay button: `disabled={isBookingLoading}`. -/
def bookPayDisabled (s : State) : Bool := s.isBookingLoading

end Chatbot

namespace PaymentPage

/-- Backend base URL used by the standalone payment page. -/
def API_BASE : String := "http://localhost:8000"

/-- The React state hooks of the PaymentPage component. -/
structure State where
  bookingId : String
  creating : Bool
  order : Option OrderObj
  keyId : String
  sdkReady : Bool
deriving DecidableEq

/-- Initial hook values of the PaymentPage component. -/
def initState : State :=
  { bookingId := "", creating := false, order := none, keyId := "", sdkReady := false }

/-- The displayed order status: `order.status || "created"`. -/
def statusLabel (o : OrderObj) : String := jsOr o.status "created"

/-- The create-order POST issued by `createOrder` for the current booking
id field. -/
def createOrderPost (s : State) : Effect :=
  Effect.httpPost (API_BASE ++ "/booking/" ++ s.bookingId ++ "/create-order") []

/-- Embeds `createOrder`: a blank booking id aborts with an alert; on
success the order and key are stored and announced; on failure the server
detail (else a generic message) is alerted; `creating` is reset in the
finally clause. -/
def createOrder (s : State) (res : NetResult CreateOrderData) :
    State × List Effect :=
  if jsTrimEmpty s.bookingId then
    (s, [Effect.alertMsg "Enter a Booking ID first."])
  else
    match res with
    | NetResult.ok d =>
        ({ s with creating := false, order := some d.order, keyId := d.key_id },
         [createOrderPost s, Effect.alertMsg ("Order created: " ++ d.order.id)])
    | NetResult.fail dt _ =>
        ({ s with creating := false },
         [createOrderPost s, Effect.consoleError "createOrder error",
          Effect.alertMsg (jsOr dt "Failed to create order. Check backend logs.")])

/-- Embeds `payNow`: guards on a stored order, a stored key and the loaded
SDK, then opens checkout with the stored order id and with the current
booking id field in the notes. -/
def payNow (s : State) : State × List Effect :=
  match s.order with
  | none => (s, [Effect.alertMsg "Create an order first."])
  | some o =>
    if s.keyId = "" then (s, [Effect.alertMsg "Create an order first."])
    else if s.sdkReady = false then (s, [Effect.alertMsg "Razorpay SDK not loaded yet."])
    else
      (s, [Effect.openCheckout
            { key := s.keyId, orderId := o.id, notesBookingId := s.bookingId }])

/-- Embeds the checkout success handler of the payment page: the verify
POST inside a try/catch whose branches only alert; no state changes. -/
def verifyHandler (s : State) (resp : RzpResp) (res : NetResult Unit) :
    State × List Effect :=
  match res with
  | NetResult.ok _ =>
      (s, [Chatbot.verifyPost API_BASE resp,
           Effect.alertMsg "✅ Payment verified! Booking confirmed."])
  | NetResult.fail d _ =>
      (s, [Chatbot.verifyPost API_BASE resp,
           Effect.consoleError "verify error",
           Effect.alertMsg (jsOr d "Verification failed. See server logs for details.")])

/-- The create-order button: `disabled={creating}`. -/
def createOrderDisabled (s : State) : Bool := s.creating

/-- The pay-now button: `disabled={!order || !keyId || !sdkReady}`. -/
def payNowDisabled (s : State) : Bool :=
  s.order.isNone || (s.keyId == "") || !s.sdkReady

/-- User-level events on the payment page: editing the booking id field,
the SDK load completing, and clicks on the two buttons (a click on a
disabled button does nothing); each click event carries the outcome of the
network call it triggers. -/
inductive Ev where
  | edit (v : String)
  | sdkLoad (ok : Bool)
  | createOrderClick (res : NetResult CreateOrderData)
  | payNowClick
deriving DecidableEq

/-- A run of the payment page: the component state, the accumulated effect
trace, and the bookkeeping list of (booking id, order id) pairs for every
order actually created during the run. -/
structure Run where
  state : State
  trace : List Effect
  created : List (String × String)
deriving DecidableEq

/-- One payment-page event step. -/
def step (r : Run) (e : Ev) : Run :=
  match e with
  | Ev.edit v => { r with state := { r.state with bookingId := v } }
  | Ev.sdkLoad ok =>
      if ok then { r with state := { r.state with sdkReady := true } }
      else { r with trace := r.trace ++
        [Effect.alertMsg "Could not load Razorpay. Check your network/adblock."] }
  | Ev.createOrderClick res =>
      if createOrderDisabled r.state then r
      else
        let out := createOrder r.state res
        let pairs :=
          match res with
          | NetResult.ok d =>
              if jsTrimEmpty r.state.bookingId then []
              else [(r.state.bookingId, d.order.id)]
          | NetResult.fail _ _ => []
        { state := out.1, trace := r.trace ++ out.2, created := r.created ++ pairs }
  | Ev.payNowClick =>
      if payNowDisabled r.state then r
      else
        let out := payNow r.state
        { r with state := out.1, trace := r.trace ++ out.2 }

/-- Run a list of payment-page events from the initial state. -/
def run (es : List Ev) : Run :=
  es.foldl step { state := initState, trace := [], created := [] }

end PaymentPage

namespace Chatbot

/-- User and network events of the combined panel relevant to the chat and
availability operations.  Clicks respect the rendered disabled attribute;
typing events act only while the corresponding section is rendered.
Request issuance and response arrival are separate events, so in-flight
requests can interleave with user actions. -/
inductive WEv where
  | openFaqSec
  | openBookingSec
  | goBack
  | typeChat (v : String)
  | typeCheckIn (v : String)
  | typeCheckOut (v : String)
  | clickChatSend
  | clickCheckAvail
  | chatOk (id : Nat) (response : String)
  | chatErr (id : Nat)
  | availOk (id : Nat) (d : Availability)
  | availErr (id : Nat)
deriving DecidableEq

/-- The component state together with the in-flight requests.  A pending
chat entry is (request id, message sent); a pending availability entry is
(request id, check-in, check-out).  Nothing ever cancels a pending
request: navigation only changes the component state. -/
structure World where
  ui : State
  pendingChat : List (Nat × String)
  pendingAvail : List (Nat × String × String)
  nextReq : Nat
deriving DecidableEq

/-- The world before any event. -/
def initWorld : World :=
  { ui := initState, pendingChat := [], pendingAvail := [], nextReq := 0 }

/-- One event step of the combined panel world. -/
def wStep (w : World) (e : WEv) : World × List Effect :=
  match e with
  | WEv.openFaqSec =>
      if w.ui.section_ = none then
        ({ w with ui := { w.ui with section_ := some "faq" } }, [])
      else (w, [])
  | WEv.openBookingSec =>
      if w.ui.section_ = none then
        ({ w with ui := { w.ui with section_ := some "booking" } }, [])
      else (w, [])
  | WEv.goBack =>
      if w.ui.section_ = some "faq" then
        ({ w with ui := { w.ui with section_ := none } }, [])
      else if w.ui.section_ = some "booking" then
        ({ w with ui := goHome w.ui }, [])
      else (w, [])
  | WEv.typeChat v =>
      if w.ui.section_ = some "faq" then
        ({ w with ui := { w.ui with currentInput := v } }, [])
      else (w, [])
  | WEv.typeCheckIn v =>
      if w.ui.section_ = some "booking" then
        ({ w with ui := { w.ui with checkIn := v } }, [])
      else (w, [])
  | WEv.typeCheckOut v =>
      if w.ui.section_ = some "booking" then
        ({ w with ui := { w.ui with checkOut := v } }, [])
      else (w, [])
  | WEv.clickChatSend =>
      if w.ui.section_ = some "faq" ∧ chatSendDisabled w.ui = false then
        if jsTrimEmpty w.ui.currentInput then (w, [])
        else
          ({ w with
              ui := { w.ui with
                chatMessages := w.ui.chatMessages ++
                  [{ from_ := "user", text := w.ui.currentInput }],
                currentInput := "" },
              pendingChat := w.pendingChat ++ [(w.nextReq, w.ui.currentInput)],
              nextReq := w.nextReq + 1 },
           [chatPost w.ui])
      else (w, [])
  | WEv.clickCheckAvail =>
      if w.ui.section_ = some "booking" ∧ checkAvailDisabled w.ui = false then
        if w.ui.checkIn = "" ∨ w.ui.checkOut = "" then
          (w, [Effect.alertMsg "Select both check-in & check-out dates."])
        else
          ({ w with
              ui := { w.ui with isCheckingLoading := true },
              pendingAvail := w.pendingAvail ++
                [(w.nextReq, w.ui.checkIn, w.ui.checkOut)],
              nextReq := w.nextReq + 1 },
           [availGet w.ui])
      else (w, [])
  | WEv.chatOk id r =>
      if w.pendingChat.any (fun p => p.1 == id) then
        ({ w with
            ui := { w.ui with
              chatMessages := w.ui.chatMessages ++ [{ from_ := "bot", text := r }],
              currentInput := "" },
            pendingChat := w.pendingChat.filter (fun p => p.1 != id) }, [])
      else (w, [])
  | WEv.chatErr id =>
      if w.pendingChat.any (fun p => p.1 == id) then
        ({ w with pendingChat := w.pendingChat.filter (fun p => p.1 != id) },
         [Effect.consoleError "Chat error:"])
      else (w, [])
  | WEv.availOk id d =>
      if w.pendingAvail.any (fun p => p.1 == id) then
        ({ w with
            ui := { w.ui with availability := some d, isCheckingLoading := false },
            pendingAvail := w.pendingAvail.filter (fun p => p.1 != id) }, [])
      else (w, [])
  | WEv.availErr id =>
      if w.pendingAvail.any (fun p => p.1 == id) then
        ({ w with
            ui := { w.ui with isCheckingLoading := false },
            pendingAvail := w.pendingAvail.filter (fun p => p.1 != id) },
         [Effect.consoleError "Availability check failed:",
          Effect.alertMsg "Failed to fetch availability."])
      else (w, [])

/-- Run a list of combined-panel events from the initial world,
accumulating all effects. -/
def wRun (es : List WEv) : World × List Effect :=
  es.foldl (fun acc e =>
    let out := wStep acc.1 e
    (out.1, acc.2 ++ out.2)) (initWorld, [])

end Chatbot

/-- Claim C1 as stated: on verify success the displayed payment status is
exactly paid (with a confirmation), before a successful verify it is
exactly pending, and on verify failure an error is surfaced while the
status stays pending — in the combined panel and on the payment page. -/
def c1ClaimProp : Prop :=
  (∀ (s : Chatbot.State) (p : PaySummary) (resp : RzpResp),
     s.paySummary = some p →
     (Chatbot.verifyHandler s resp (NetResult.ok ())).1.paySummary.map
       Chatbot.chipLabel = some "Paid")
  ∧ (∀ p : PaySummary, p.status = none → Chatbot.chipLabel p = "Payment Pending")
  ∧ (∀ (s : Chatbot.State) (resp : RzpResp) (d : Option String) (m : String),
      ∃ t, Effect.alertMsg t ∈ (Chatbot.verifyHandler s resp (NetResult.fail d m)).2)
  ∧ (∀ o : OrderObj, o.status = none → PaymentPage.statusLabel o = "pending")
  ∧ (∀ (s : PaymentPage.State) (o : OrderObj) (resp : RzpResp),
      s.order = some o →
      (PaymentPage.verifyHandler s resp (NetResult.ok ())).1.order.map
        PaymentPage.statusLabel = some "paid")

/-- Claim C2 as stated: an empty user identifier, room type, check-in or
check-out aborts the booking submission with no network request and no
state change. -/
def c2ClaimProp : Prop :=
  ∀ (s : Chatbot.State) (env : Chatbot.BookingEnv),
    (s.email = "" ∨ s.roomType = "" ∨ s.checkIn = "" ∨ s.checkOut = "") →
    (Chatbot.handleBookingSubmit s env).1 = s
    ∧ (Chatbot.handleBookingSubmit s env).2.all (fun e => !isNetworkEffect e) = true

/-- Claim C4 as stated: every network operation catches a backend failure
and alerts the server-supplied detail message (when present), and resets
its loading flag. -/
def c4ClaimProp : Prop :=
  (∀ (s : Chatbot.State) (t m : String),
     jsTrimEmpty s.currentInput = false → ¬ t = "" →
     Effect.alertMsg t ∈ (Chatbot.handleChatSubmit s (NetResult.fail (some t) m)).2)
  ∧ (∀ (s : Chatbot.State) (t m : String),
      ¬ s.roomNumber = "" → ¬ s.phoneNumber = "" → ¬ s.requestText = "" → ¬ t = "" →
      Effect.alertMsg t ∈ (Chatbot.handleRequestSubmit s (NetResult.fail (some t) m)).2
      ∧ (Chatbot.handleRequestSubmit s (NetResult.fail (some t) m)).1.isRequestLoading = false)
  ∧ (∀ (s : Chatbot.State) (env : Chatbot.BookingEnv) (t m : String),
      ¬ s.email = "" → ¬ s.checkIn = "" → ¬ s.checkOut = "" → ¬ t = "" →
      env.bookingRes = NetResult.fail (some t) m →
      Effect.alertMsg t ∈ (Chatbot.handleBookingSubmit s env).2
      ∧ (Chatbot.handleBookingSubmit s env).1.isBookingLoading = false)
  ∧ (∀ (s : Chatbot.State) (t m : String),
      ¬ s.checkIn = "" → ¬ s.checkOut = "" → ¬ t = "" →
      Effect.alertMsg t ∈ (Chatbot.checkRoomAvailability s (NetResult.fail (some t) m)).2
      ∧ (Chatbot.checkRoomAvailability s (NetResult.fail (some t) m)).1.isCheckingLoading = false)
  ∧ (∀ (s : PaymentPage.State) (t m : String),
      jsTrimEmpty s.bookingId = false → ¬ t = "" →
      Effect.alertMsg t ∈ (PaymentPage.createOrder s (NetResult.fail (some t) m)).2
      ∧ (PaymentPage.createOrder s (NetResult.fail (some t) m)).1.creating = false)

/-- Claim C5 as stated: in every payment-page run, any checkout invocation
pairs an order id with the booking id for which that order was created. -/
def c5ClaimProp : Prop :=
  ∀ (es : List PaymentPage.Ev) (cfg : CheckoutConfig),
    Effect.openCheckout cfg ∈ (PaymentPage.run es).trace →
    (cfg.notesBookingId, cfg.orderId) ∈ (PaymentPage.run es).created

/-- Claim C6 as stated: once a newer availability query has succeeded, a
later success of an older (lower request id) query never changes the
displayed availability. -/
def c6ClaimProp : Prop :=
  ∀ (es : List Chatbot.WEv) (a b : Nat) (da db : Availability),
    a < b →
    Chatbot.WEv.availOk b db ∈ es →
    (Chatbot.wRun (es ++ [Chatbot.WEv.availOk a da])).1.ui.availability
      = (Chatbot.wRun es).1.ui.availability

/-- Claim C7 as stated (restricted to the operations of the world model):
whenever a chat or availability request is in flight, the control that
triggered it is rendered disabled. -/
def c7ClaimProp : Prop :=
  ∀ es : List Chatbot.WEv,
    ((Chatbot.wRun es).1.pendingChat ≠ [] →
      Chatbot.chatSendDisabled (Chatbot.wRun es).1.ui = true)
    ∧ ((Chatbot.wRun es).1.pendingAvail ≠ [] →
      Chatbot.checkAvailDisabled (Chatbot.wRun es).1.ui = true)

/-- Payment-page run of the spec example scenario followed by an edit of
the booking id and a pay-now click. -/
def c5trace : List PaymentPage.Ev :=
  [PaymentPage.Ev.edit "b1",
   PaymentPage.Ev.sdkLoad true,
   PaymentPage.Ev.createOrderClick (NetResult.ok
     { key_id := "rzp_test_x",
       order := { id := "order_1", amount := 400000, currency := "INR", status := none } }),
   PaymentPage.Ev.edit "b2",
   PaymentPage.Ev.payNowClick]

/-- Combined-panel run in which a first availability query is left in
flight (back navigation resets the checking flag without cancelling it), a
second query is issued and answered, and only then the first answer
arrives. -/
def c6staleTrace : List Chatbot.WEv :=
  [Chatbot.WEv.openBookingSec,
   Chatbot.WEv.typeCheckIn "2024-06-01",
   Chatbot.WEv.typeCheckOut "2024-06-03",
   Chatbot.WEv.clickCheckAvail,
   Chatbot.WEv.goBack,
   Chatbot.WEv.openBookingSec,
   Chatbot.WEv.typeCheckIn "2024-07-01",
   Chatbot.WEv.typeCheckOut "2024-07-03",
   Chatbot.WEv.clickCheckAvail,
   Chatbot.WEv.availOk 1 { Deluxe := 2, Suite := 2, Standard := 2 }]

/-- Combined-panel run that issues one chat request and leaves it in
flight. -/
def c7trace : List Chatbot.WEv :=
  [Chatbot.WEv.openFaqSec, Chatbot.WEv.typeChat "hi", Chatbot.WEv.clickChatSend]

/-- Combined-panel run that issues a second chat request while the first
is still in flight. -/
def c7dupTrace : List Chatbot.WEv :=
  [Chatbot.WEv.openFaqSec, Chatbot.WEv.typeChat "hi", Chatbot.WEv.clickChatSend,
   Chatbot.WEv.typeChat "again", Chatbot.WEv.clickChatSend]

/-- Booking form filled as in the spec example scenario. -/
def scenarioState : Chatbot.State :=
  { Chatbot.initState with
      section_ := some "booking", email := "guest@example.com",
      roomType := "Suite", checkIn := "2024-06-01", checkOut := "2024-06-03" }

/-- Network outcomes of the spec example scenario. -/
def scenarioEnv : Chatbot.BookingEnv :=
  { bookingRes := NetResult.ok (some { id := some "abc-123" }),
    orderRes := NetResult.ok
      { key_id := "rzp_test_x",
        order := { id := "order_1", amount := 400000, currency := "INR", status := none } },
    razorpayErr := none }

/-- Component state with the booking section open, dates filled and the
checking flag set. -/
def busyWorldUi : Chatbot.State :=
  { Chatbot.initState with
      section_ := some "booking", checkIn := "2024-06-01",
      checkOut := "2024-06-03", isCheckingLoading := true }

/-- A world holding `busyWorldUi` with one availability query in flight. -/
def busyWorld : Chatbot.World :=
  { ui := busyWorldUi, pendingChat := [],
    pendingAvail := [(0, "2024-06-01", "2024-06-03")], nextReq := 1 }

/-- The order of the spec example scenario. -/
def sampleOrder : OrderObj :=
  { id := "order_1", amount := 400000, currency := "INR", status := none }

/-- The pay summary built from `sampleOrder` before any verify. -/
def samplePay : PaySummary :=
  { amount := 400000, currency := "INR", orderId := "order_1", status := none }

/-- A concrete checkout callback payload. -/
def sampleResp : RzpResp :=
  { razorpay_order_id := "order_1", razorpay_payment_id := "pay_1",
    razorpay_signature := "sig_1" }

/-- Combined-panel state holding `samplePay` as the pay summary. -/
def paidChatState : Chatbot.State :=
  { Chatbot.initState with paySummary := some samplePay }

/-- Booking form with every field filled except the room type, which is
empty. -/
def c2BadState : Chatbot.State :=
  { Chatbot.initState with
      email := "a@b.c", roomType := "",
      checkIn := "2024-06-01", checkOut := "2024-06-03" }

/-- A fully filled booking form. -/
def filledBookingState : Chatbot.State :=
  { Chatbot.initState with
      email := "a@b.c", checkIn := "2024-06-01", checkOut := "2024-06-03" }

/-- Environment in which the booking create succeeds but the returned
booking carries no id. -/
def noIdEnv : Chatbot.BookingEnv :=
  { bookingRes := NetResult.ok (some { id := none }),
    orderRes := NetResult.fail none "unused", razorpayErr := none }

/-- Environment in which the booking create fails with a server detail. -/
def bookingFailEnv : Chatbot.BookingEnv :=
  { bookingRes := NetResult.fail (some "boom") "Request failed",
    orderRes := NetResult.fail none "unused", razorpayErr := none }

/-- Combined-panel state with a nonempty chat input. -/
def chatInputState : Chatbot.State :=
  { Chatbot.initState with currentInput := "hi" }

/-- Combined-panel state with a whitespace-only chat input. -/
def blankChatState : Chatbot.State :=
  { Chatbot.initState with currentInput := "   " }

/-- A filled room-service form. -/
def filledRequestState : Chatbot.State :=
  { Chatbot.initState with
      roomNumber := "101", phoneNumber := "555", requestText := "towels" }

/-- Payment-page state with a booking id entered. -/
def ppWithBookingId : PaymentPage.State :=
  { PaymentPage.initState with bookingId := "b1" }

/-- Payment-page state after creating an order for booking b1 and then
editing the booking id field to b2. -/
def ppEditedState : PaymentPage.State :=
  { bookingId := "b2", creating := false, order := some sampleOrder,
    keyId := "rzp_test_x", sdkReady := true }

/-- Claim C1 is false as stated: on the standalone Payment Page the
displayed status of an order without a status field reads "created", not
"pending", and a successful verify never changes it to "paid"; in the
combined panel a failed verify surfaces no alert.  The instance refuted
here is the before-verify status of `sampleOrder` on the Payment Page. -/
theorem c1_counterexample : ¬ c1ClaimProp := by
  intro h
  exact absurd (h.2.2.2.1 sampleOrder rfl) (by decide)

/-- Claim C1 amended: in the combined panel the chip reads "Payment
Pending" before a successful verify, a successful verify sets it to
"Paid" and shows the confirmation banner, and a failed verify leaves the
state unchanged and produces only the single verify POST (no alert, no
retry).  On the Payment Page the verify handler never changes the state:
success and failure surface alerts only, and the displayed status is the
order status field defaulted to "created". -/
theorem c1_amended :
    (∀ p : PaySummary, p.status = none → Chatbot.chipLabel p = "Payment Pending")
    ∧ (∀ (s : Chatbot.State) (p : PaySummary) (resp : RzpResp),
        s.paySummary = some p →
        (Chatbot.verifyHandler s resp (NetResult.ok ())).1.paySummary.map
          Chatbot.chipLabel = some "Paid"
        ∧ (Chatbot.verifyHandler s resp (NetResult.ok ())).1.bookingSuccess
            = "✅ Payment successful! Your booking is confirmed.")
    ∧ (∀ (s : Chatbot.State) (resp : RzpResp) (d : Option String) (m : String),
        Chatbot.verifyHandler s resp (NetResult.fail d m)
          = (s, [Chatbot.verifyPost Chatbot.API_BASE resp]))
    ∧ (∀ (s : PaymentPage.State) (resp : RzpResp) (res : NetResult Unit),
        (PaymentPage.verifyHandler s resp res).1 = s)
    ∧ (∀ (s : PaymentPage.State) (resp : RzpResp),
        (PaymentPage.verifyHandler s resp (NetResult.ok ())).2
          = [Chatbot.verifyPost PaymentPage.API_BASE resp,
             Effect.alertMsg "✅ Payment verified! Booking confirmed."])
    ∧ (∀ (s : PaymentPage.State) (resp : RzpResp) (t m : String), ¬ t = "" →
        (PaymentPage.verifyHandler s resp (NetResult.fail (some t) m)).2
          = [Chatbot.verifyPost PaymentPage.API_BASE resp,
             Effect.consoleError "verify error", Effect.alertMsg t])
    ∧ (∀ o : OrderObj, o.status = none → PaymentPage.statusLabel o = "created") := by
  refine ⟨?_, ?_, ?_, ?_, ?_, ?_, ?_⟩
  · intro p h
    simp [Chatbot.chipLabel, h]
  · intro s p resp h
    constructor
    · simp [Chatbot.verifyHandler, h, Chatbot.chipLabel]
    · rfl
  · intro s resp d m
    rfl
  · intro s resp res
    cases res <;> rfl
  · intro s resp
    rfl
  · intro s resp t m h
    simp [PaymentPage.verifyHandler, jsOr, h]
  · intro o h
    simp [PaymentPage.statusLabel, jsOr, h]

/-- Witness for the amended claim C1 at concrete inputs. -/
theorem c1_amended_witness :
    Chatbot.chipLabel samplePay = "Payment Pending"
    ∧ (Chatbot.verifyHandler paidChatState sampleResp (NetResult.ok ())).1.paySummary.map
        Chatbot.chipLabel = some "Paid"
    ∧ (PaymentPage.verifyHandler PaymentPage.initState sampleResp
        (NetResult.fail (some "boom") "Request failed")).2
        = [Chatbot.verifyPost PaymentPage.API_BASE sampleResp,
           Effect.consoleError "verify error", Effect.alertMsg "boom"]
    ∧ PaymentPage.statusLabel sampleOrder = "created" :=
  ⟨c1_amended.1 samplePay rfl,
   (c1_amended.2.1 paidChatState samplePay sampleResp rfl).1,
   c1_amended.2.2.2.2.2.1 PaymentPage.initState sampleResp "boom" "Request failed"
     (by decide),
   c1_amended.2.2.2.2.2.2 sampleOrder rfl⟩

/-- Claim C2 is false as stated: the booking submission validates only the
email and the two dates, not the room type.  With every field filled but
the room type empty, the submission still issues the booking network
call. -/
theorem c2_counterexample : ¬ c2ClaimProp := by
  intro h
  have h2 := (h c2BadState scenarioEnv (Or.inr (Or.inl rfl))).2
  exact absurd h2 (by decide)

/-- Claim C2 amended: submitting the booking form with any of the user
identifier, check-in or check-out empty aborts with a validation alert,
changes no state and issues no network call; the room type is not
validated. -/
theorem c2_amended (s : Chatbot.State) (env : Chatbot.BookingEnv)
    (h : s.email = "" ∨ s.checkIn = "" ∨ s.checkOut = "") :
    Chatbot.handleBookingSubmit s env
      = (s, [Effect.alertMsg "Please fill all fields."]) := by
  unfold Chatbot.handleBookingSubmit
  rw [if_pos h]

/-- Witness for the amended claim C2: an empty email aborts with the
validation alert only. -/
theorem c2_amended_witness :
    Chatbot.handleBookingSubmit Chatbot.initState scenarioEnv
      = (Chatbot.initState, [Effect.alertMsg "Please fill all fields."]) :=
  c2_amended Chatbot.initState scenarioEnv (Or.inl rfl)

/-- Claim C3: when the booking-create call succeeds but the response
carries no booking id, the flow aborts with the failure alert and no
order-creation request is issued. -/
theorem c3_missing_booking_id (s : Chatbot.State) (env : Chatbot.BookingEnv)
    (payload : Option BookingObj)
    (h1 : ¬ s.email = "") (h2 : ¬ s.checkIn = "") (h3 : ¬ s.checkOut = "")
    (h4 : env.bookingRes = NetResult.ok payload)
    (h5 : Chatbot.extractBookingId payload = none) :
    Chatbot.handleBookingSubmit s env
      = ({ s with isBookingLoading := false },
         [Chatbot.bookingPost s, Effect.consoleError "Book & Pay error:",
          Effect.alertMsg "Booking create failed"])
    ∧ (Chatbot.handleBookingSubmit s env).2.all
        (fun e => !isCreateOrderPost e) = true := by
  have key : Chatbot.handleBookingSubmit s env
      = ({ s with isBookingLoading := false },
         [Chatbot.bookingPost s, Effect.consoleError "Book & Pay error:",
          Effect.alertMsg "Booking create failed"]) := by
    simp [Chatbot.handleBookingSubmit, h1, h2, h3, h4, h5]
  refine ⟨key, ?_⟩
  rw [key]
  simp [isCreateOrderPost, Chatbot.bookingPost, Chatbot.API_BASE]
  decide

/-- Witness for claim C3: a filled form with a booking-create response
whose booking object has no id. -/
theorem c3_witness :
    Chatbot.handleBookingSubmit filledBookingState noIdEnv
      = ({ filledBookingState with isBookingLoading := false },
         [Chatbot.bookingPost filledBookingState,
          Effect.consoleError "Book & Pay error:",
          Effect.alertMsg "Booking create failed"]) :=
  (c3_missing_booking_id filledBookingState noIdEnv (some { id := none })
    (by decide) (by decide) (by decide) rfl rfl).1

/-- Claim C4 is false as stated: a chat submission failure is caught but
only logged to the console; no alert carrying the server detail (or any
alert at all) is shown. -/
theorem c4_counterexample : ¬ c4ClaimProp := by
  intro h
  have h2 := h.1 chatInputState "boom" "Request failed" (by decide) (by decide)
  exact absurd h2 (by decide)

/-- Claim C4 amended: the booking submission and the payment-page order
creation catch failures, alert the server detail when present, and reset
their loading flags; the availability check catches failures and resets
its flag but always alerts a fixed generic message, ignoring any server
detail; the room-service submission resets its flag in a cleanup path but
has no catch clause, so a failure produces no alert; the chat submission
catches failures but only logs them to the console, shows no alert, and
has no loading flag at all. -/
theorem c4_amended :
    (∀ (s : Chatbot.State) (env : Chatbot.BookingEnv) (t m : String),
       ¬ s.email = "" → ¬ s.checkIn = "" → ¬ s.checkOut = "" → ¬ t = "" →
       env.bookingRes = NetResult.fail (some t) m →
       Chatbot.handleBookingSubmit s env
         = ({ s with isBookingLoading := false },
            [Chatbot.bookingPost s, Effect.consoleError "Book & Pay error:",
             Effect.alertMsg t]))
    ∧ (∀ (s : PaymentPage.State) (t m : String),
        jsTrimEmpty s.bookingId = false → ¬ t = "" →
        PaymentPage.createOrder s (NetResult.fail (some t) m)
          = ({ s with creating := false },
             [PaymentPage.createOrderPost s, Effect.consoleError "createOrder error",
              Effect.alertMsg t]))
    ∧ (∀ (s : Chatbot.State) (d : Option String) (m : String),
        ¬ s.checkIn = "" → ¬ s.checkOut = "" →
        Chatbot.checkRoomAvailability s (NetResult.fail d m)
          = ({ s with isCheckingLoading := false },
             [Chatbot.availGet s, Effect.consoleError "Availability check failed:",
              Effect.alertMsg "Failed to fetch availability."]))
    ∧ (∀ (s : Chatbot.State) (d : Option String) (m : String),
        ¬ s.roomNumber = "" → ¬ s.phoneNumber = "" → ¬ s.requestText = "" →
        Chatbot.handleRequestSubmit s (NetResult.fail d m)
          = ({ s with isRequestLoading := false }, [Chatbot.requestPost s]))
    ∧ (∀ (s : Chatbot.State) (d : Option String) (m : String),
        jsTrimEmpty s.currentInput = false →
        Chatbot.handleChatSubmit s (NetResult.fail d m)
          = ({ s with
                chatMessages := s.chatMessages ++
                  [{ from_ := "user", text := s.currentInput }],
                currentInput := "" },
             [Chatbot.chatPost s, Effect.consoleError "Chat error:"])) := by
  refine ⟨?_, ?_, ?_, ?_, ?_⟩
  · intro s env t m h1 h2 h3 ht h4
    simp [Chatbot.handleBookingSubmit, h1, h2, h3, h4, jsOr, ht]
  · intro s t m hb ht
    simp [PaymentPage.createOrder, hb, jsOr, ht]
  · intro s d m h1 h2
    simp [Chatbot.checkRoomAvailability, h1, h2]
  · intro s d m h1 h2 h3
    simp [Chatbot.handleRequestSubmit, h1, h2, h3]
  · intro s d m h
    simp [Chatbot.handleChatSubmit, h]

/-- Witness for the amended claim C4 at concrete inputs. -/
theorem c4_amended_witness :
    Chatbot.handleBookingSubmit filledBookingState bookingFailEnv
      = ({ filledBookingState with isBookingLoading := false },
         [Chatbot.bookingPost filledBookingState,
          Effect.consoleError "Book & Pay error:", Effect.alertMsg "boom"])
    ∧ PaymentPage.createOrder ppWithBookingId (NetResult.fail (some "boom") "Request failed")
      = ({ ppWithBookingId with creating := false },
         [PaymentPage.createOrderPost ppWithBookingId,
          Effect.consoleError "createOrder error", Effect.alertMsg "boom"])
    ∧ Chatbot.checkRoomAvailability filledBookingState (NetResult.fail (some "boom") "Request failed")
      = ({ filledBookingState with isCheckingLoading := false },
         [Chatbot.availGet filledBookingState,
          Effect.consoleError "Availability check failed:",
          Effect.alertMsg "Failed to fetch availability."])
    ∧ Chatbot.handleRequestSubmit filledRequestState (NetResult.fail (some "boom") "Request failed")
      = ({ filledRequestState with isRequestLoading := false },
         [Chatbot.requestPost filledRequestState])
    ∧ Chatbot.handleChatSubmit chatInputState (NetResult.fail (some "boom") "Request failed")
      = ({ chatInputState with
            chatMessages := chatInputState.chatMessages ++
              [{ from_ := "user", text := chatInputState.currentInput }],
            currentInput := "" },
         [Chatbot.chatPost chatInputState, Effect.consoleError "Chat error:"]) :=
  ⟨c4_amended.1 filledBookingState bookingFailEnv "boom" "Request failed"
     (by decide) (by decide) (by decide) (by decide) rfl,
   c4_amended.2.1 ppWithBookingId "boom" "Request failed" (by decide) (by decide),
   c4_amended.2.2.1 filledBookingState (some "boom") "Request failed"
     (by decide) (by decide),
   c4_amended.2.2.2.1 filledRequestState (some "boom") "Request failed"
     (by decide) (by decide) (by decide),
   c4_amended.2.2.2.2 chatInputState (some "boom") "Request failed" (by decide)⟩

/-- Claim C5 is false as stated: in the run `c5trace` an order is created
for booking "b1", the booking id field is then edited to "b2", and the
pay-now click opens checkout with the stale order "order_1" paired with
the note "b2" — a pairing for which no order was created. -/
theorem c5_counterexample : ¬ c5ClaimProp := by
  intro h
  have h2 := h c5trace
    { key := "rzp_test_x", orderId := "order_1", notesBookingId := "b2" }
    (by decide)
  exact absurd h2 (by decide)

/-- Claim C5 amended: the pay-now click always opens checkout with the
stored order id paired with the current content of the booking id input
field; nothing ties the stored order to the booking id it was created
for, so editing the field between order creation and payment pairs a
stale order with a different booking id. -/
theorem c5_amended (s : PaymentPage.State) (o : OrderObj)
    (h1 : s.order = some o) (h2 : ¬ s.keyId = "") (h3 : s.sdkReady = true) :
    PaymentPage.payNow s
      = (s, [Effect.openCheckout
              { key := s.keyId, orderId := o.id, notesBookingId := s.bookingId }]) := by
  unfold PaymentPage.payNow
  rw [h1]
  simp [h2, h3]

/-- Witness for the amended claim C5: the state reached in `c5trace` after
editing the booking id to "b2". -/
theorem c5_amended_witness :
    PaymentPage.payNow ppEditedState
      = (ppEditedState,
         [Effect.openCheckout
           { key := "rzp_test_x", orderId := "order_1", notesBookingId := "b2" }]) :=
  c5_amended ppEditedState sampleOrder rfl (by decide) rfl

/-- Claim C6 is false as stated: in the run `c6staleTrace` the older query 0
is left in flight (back navigation resets the checking flag without
cancelling the request), a newer query 1 is issued and answered, and the
late answer of query 0 then overwrites the newer displayed counts. -/
theorem c6_counterexample : ¬ c6ClaimProp := by
  intro h
  have h2 := h c6staleTrace 0 1 { Deluxe := 1, Suite := 1, Standard := 1 }
    { Deluxe := 2, Suite := 2, Standard := 2 } (by decide) (by decide)
  have e1 : (Chatbot.wRun (c6staleTrace ++
      [Chatbot.WEv.availOk 0 { Deluxe := 1, Suite := 1, Standard := 1 }])).1.ui.availability
      = some { Deluxe := 1, Suite := 1, Standard := 1 } := by decide
  have e2 : (Chatbot.wRun c6staleTrace).1.ui.availability
      = some { Deluxe := 2, Suite := 2, Standard := 2 } := by decide
  rw [e1, e2] at h2
  exact absurd h2 (by decide)

/-- Claim C6 amended: superseded availability results are simply
overwritten — the success of any query still recorded as pending sets the
displayed counts to its own payload and clears the checking flag,
regardless of whether a newer query already succeeded. -/
theorem c6_amended (w : Chatbot.World) (id : Nat) (ci co : String)
    (d : Availability) (h : (id, ci, co) ∈ w.pendingAvail) :
    (Chatbot.wStep w (Chatbot.WEv.availOk id d)).1.ui.availability = some d
    ∧ (Chatbot.wStep w (Chatbot.WEv.availOk id d)).1.ui.isCheckingLoading = false := by
  have hany : w.pendingAvail.any (fun p => p.1 == id) = true :=
    List.any_eq_true.mpr ⟨(id, ci, co), h, by simp⟩
  constructor <;> simp [Chatbot.wStep, hany]

/-- Witness for the amended claim C6: resolving the pending query of
`busyWorld` overwrites the display. -/
theorem c6_amended_witness :
    (Chatbot.wStep busyWorld
      (Chatbot.WEv.availOk 0 { Deluxe := 3, Suite := 3, Standard := 3 })).1.ui.availability
      = some { Deluxe := 3, Suite := 3, Standard := 3 }
    ∧ (Chatbot.wStep busyWorld
        (Chatbot.WEv.availOk 0 { Deluxe := 3, Suite := 3, Standard := 3 })).1.ui.isCheckingLoading
      = false :=
  c6_amended busyWorld 0 "2024-06-01" "2024-06-03"
    { Deluxe := 3, Suite := 3, Standard := 3 } (by decide)

/-- Claim C7 is false as stated: after the run `c7trace` a chat request is
in flight, yet the chat send button is not disabled. -/
theorem c7_counterexample : ¬ c7ClaimProp := by
  intro h
  have h2 := (h c7trace).1 (by decide)
  exact absurd h2 (by decide)

/-- Claim C7 amended: the availability, book-and-pay, room-service and
payment-page create-order buttons are disabled exactly while their
loading flag is set, and a click on the disabled availability button is a
no-op; the chat send button is never disabled, and a second chat request
can be issued while the first is still in flight. -/
theorem c7_amended :
    (∀ w : Chatbot.World, w.ui.isCheckingLoading = true →
       Chatbot.wStep w Chatbot.WEv.clickCheckAvail = (w, []))
    ∧ (∀ s : Chatbot.State, Chatbot.chatSendDisabled s = false)
    ∧ (∀ s : Chatbot.State, Chatbot.checkAvailDisabled s = s.isCheckingLoading)
    ∧ (∀ s : Chatbot.State, Chatbot.bookPayDisabled s = s.isBookingLoading)
    ∧ (∀ s : Chatbot.State, Chatbot.requestSendDisabled s = s.isRequestLoading)
    ∧ (∀ s : PaymentPage.State, PaymentPage.createOrderDisabled s = s.creating)
    ∧ (Chatbot.wRun c7dupTrace).1.pendingChat.length = 2 := by
  refine ⟨?_, ?_, ?_, ?_, ?_, ?_, ?_⟩
  · intro w h
    simp [Chatbot.wStep, Chatbot.checkAvailDisabled, h]
  · intro s
    rfl
  · intro s
    rfl
  · intro s
    rfl
  · intro s
    rfl
  · intro s
    rfl
  · decide

/-- Witness for the amended claim C7: clicking the disabled availability
button of `busyWorld` is a no-op. -/
theorem c7_amended_witness :
    Chatbot.wStep busyWorld Chatbot.WEv.clickCheckAvail = (busyWorld, []) :=
  c7_amended.1 busyWorld rfl

/-- Claim C8: with the create-order response of the example scenario
(amount 400000, currency INR), the displayed amount — in the combined
panel pay summary and in the payment-page order box — reads exactly
"₹4000.00 INR". -/
theorem c8_amount_render :
    (Chatbot.handleBookingSubmit scenarioState scenarioEnv).1.paySummary.map
      (fun p => renderAmount p.amount p.currency) = some "₹4000.00 INR"
    ∧ renderAmount sampleOrder.amount sampleOrder.currency = "₹4000.00 INR" := by
  decide

/-- Claim C9: leaving the booking panel via the back button (`goHome`) and
opening it again shows every booking field at its default: email empty,
room type Deluxe, both dates empty, availability cleared. -/
theorem c9_reset_on_reentry (s : Chatbot.State) :
    (Chatbot.openBooking (Chatbot.goHome s)).section_ = some "booking"
    ∧ (Chatbot.openBooking (Chatbot.goHome s)).email = ""
    ∧ (Chatbot.openBooking (Chatbot.goHome s)).roomType = "Deluxe"
    ∧ (Chatbot.openBooking (Chatbot.goHome s)).checkIn = ""
    ∧ (Chatbot.openBooking (Chatbot.goHome s)).checkOut = ""
    ∧ (Chatbot.openBooking (Chatbot.goHome s)).availability = none := by
  refine ⟨rfl, rfl, rfl, rfl, rfl, rfl⟩

/-- Claim C10: submitting the chat with an empty or whitespace-only input
is a complete no-op — no state change and no effect at all. -/
theorem c10_empty_chat_noop (s : Chatbot.State) (res : NetResult String)
    (h : jsTrimEmpty s.currentInput = true) :
    Chatbot.handleChatSubmit s res = (s, []) := by
  simp [Chatbot.handleChatSubmit, h]

/-- Witness for claim C10: a whitespace-only input. -/
theorem c10_witness :
    Chatbot.handleChatSubmit blankChatState (NetResult.fail none "Request failed")
      = (blankChatState, []) :=
  c10_empty_chat_noop blankChatState (NetResult.fail none "Request failed") (by decide)
